import Mathlib

/-!
Verification of the calendar month-grid logic in `calendarapp/views.py`.

The embedding follows the Python source together with the parts of the
CPython standard library it calls (`calendar.monthrange`,
`Calendar.monthdayscalendar`, `datetime.date` construction and
day-arithmetic).  Raising paths (`ValueError` / `OverflowError` from
`datetime.date`) are modelled with `Option`: `none` means the Python code
raises.
-/

namespace CalendarApp

/-- `calendar.isleap(year)` (also `datetime`'s leap rule):
`year % 4 == 0 and (year % 100 != 0 or year % 400 == 0)`.
Python `%` on ints is `Int.emod`. -/
def isleap (y : Int) : Bool :=
  y % 4 == 0 && (y % 100 != 0 || y % 400 == 0)

/-- `calendar.mdays = [0, 31, 28, 31, 30, 31, 30, 31, 31, 30, 31, 30, 31]`. -/
def mdays : List Nat := [0, 31, 28, 31, 30, 31, 30, 31, 31, 30, 31, 30, 31]

/-- Days in a month: `mdays[month] + (month == FEBRUARY and isleap(year))`,
as in `calendar.monthrange` and `datetime._days_in_month`. -/
def daysInMonth (y : Int) (m : Nat) : Nat :=
  mdays.getD m 0 + (if m = 2 ∧ isleap y = true then 1 else 0)

/-- `datetime._days_before_year(year)`: days in the proleptic Gregorian
calendar before January 1 of `year` (`y = year - 1`;
`y*365 + y//4 - y//100 + y//400`). -/
def daysBeforeYear (year : Nat) : Nat :=
  (year - 1) * 365 + (year - 1) / 4 - (year - 1) / 100 + (year - 1) / 400

/-- `datetime._DAYS_BEFORE_MONTH` (index 0 unused). -/
def daysBeforeMonthTable : List Nat :=
  [0, 0, 31, 59, 90, 120, 151, 181, 212, 243, 273, 304, 334]

/-- `datetime._days_before_month(year, month)`. -/
def daysBeforeMonth (year : Nat) (m : Nat) : Nat :=
  daysBeforeMonthTable.getD m 0 + (if 2 < m ∧ isleap year = true then 1 else 0)

/-- `datetime.date.toordinal()`: proleptic Gregorian ordinal,
ordinal 1 = January 1 of year 1. -/
def toordinal (year : Nat) (m d : Nat) : Nat :=
  daysBeforeYear year + daysBeforeMonth year m + d

/-- `calendar.weekday(year, month, day)`: Monday = 0 … Sunday = 6.
Years outside `datetime`'s range are first normalised to
`2000 + year % 400`, then `date(...).weekday() = (toordinal + 6) % 7`. -/
def pyWeekday (y : Int) (m d : Nat) : Nat :=
  (toordinal (if 1 ≤ y ∧ y ≤ 9999 then y.toNat else (2000 + y % 400).toNat) m d + 6) % 7

/-- `calendar.SUNDAY`, the `firstweekday` used at views.py line 44. -/
def firstweekday : Nat := 6

/-- `days_before = (day1 - self.firstweekday) % 7` in
`Calendar.itermonthdays` (Python `%` on ints, hence `Int.emod`). -/
def padBefore (y : Int) (m : Nat) : Nat :=
  ((((pyWeekday y m 1 : Int) - (firstweekday : Int)) % 7)).toNat

/-- `days_after = (self.firstweekday - day1 - ndays) % 7` in
`Calendar.itermonthdays`. -/
def padAfter (y : Int) (m : Nat) : Nat :=
  ((((firstweekday : Int) - (pyWeekday y m 1 : Int) - (daysInMonth y m : Int)) % 7)).toNat

/-- `list(Calendar.itermonthdays(year, month))` with `firstweekday = SUNDAY`:
`days_before` zeros, then `1 .. ndays`, then `days_after` zeros. -/
def itermonthdays (y : Int) (m : Nat) : List Nat :=
  List.replicate (padBefore y m) 0 ++ List.range' 1 (daysInMonth y m)
    ++ List.replicate (padAfter y m) 0

/-- `[days[i:i+7] for i in range(0, len(days), 7)]`, by fuel-counted
structural recursion (the fuel is instantiated with the list length). -/
def chunksAux {α : Type} : Nat → List α → List (List α)
  | 0, _ => []
  | fuel + 1, l => if l.isEmpty then [] else l.take 7 :: chunksAux fuel (l.drop 7)

/-- `calendar.Calendar(firstweekday=SUNDAY).monthdayscalendar(year, month)`. -/
def monthdayscalendar (y : Int) (m : Nat) : List (List Nat) :=
  chunksAux (itermonthdays y m).length (itermonthdays y m)

/-- `datetime.date`: `year` is a Python int, `month`/`day` are the
(non-negative) calendar components. -/
structure PyDate where
  year : Int
  month : Nat
  day : Nat
deriving DecidableEq

/-- `datetime.date(year, month, day)` with `_check_date_fields`:
`none` models the `ValueError` raised on out-of-range components
(`MINYEAR = 1`, `MAXYEAR = 9999`). -/
def date? (y : Int) (m d : Nat) : Option PyDate :=
  if 1 ≤ y ∧ y ≤ 9999 ∧ 1 ≤ m ∧ m ≤ 12 ∧ 1 ≤ d ∧ d ≤ daysInMonth y m then
    some ⟨y, m, d⟩
  else none

/-- `DayCell` (views.py lines 12–19): `day == 0` marks a padding cell,
`date` is `None` exactly on padding cells. -/
structure DayCell where
  day : Nat
  date : Option PyDate
deriving DecidableEq

/-- The body of the inner loop of `_build_month_grid` (views.py lines
49–53): a padding cell for `day_num == 0`, otherwise a cell carrying
`dt.date(year, month, day_num)` (which can raise, hence `Option`). -/
def cellOf (y : Int) (m : Nat) (d : Nat) : Option DayCell :=
  if d = 0 then some ⟨0, none⟩
  else (date? y m d).map fun dd => ⟨d, some dd⟩

/-- One `row` of `_build_month_grid`: build the cells of a week in order,
propagating a raise from `dt.date`. -/
def buildRow (y : Int) (m : Nat) : List Nat → Option (List DayCell)
  | [] => some []
  | d :: rest =>
    match cellOf y m d, buildRow y m rest with
    | some c, some cs => some (c :: cs)
    | _, _ => none

/-- The outer loop of `_build_month_grid` over
`cal.monthdayscalendar(year, month)`. -/
def buildRows (y : Int) (m : Nat) : List (List Nat) → Option (List (List DayCell))
  | [] => some []
  | w :: rest =>
    match buildRow y m w, buildRows y m rest with
    | some r, some rs => some (r :: rs)
    | _, _ => none

/-- `_build_month_grid(year, month)` (views.py lines 40–57).  `none`
models a raise: `calendar.monthrange` raises `IllegalMonthError` for a
month outside `[1, 12]`, and `dt.date(year, month, day_num)` raises
`ValueError` for a year outside `[1, 9999]`. -/
def buildMonthGrid? (y : Int) (m : Nat) : Option (List (List DayCell)) :=
  if m < 1 ∨ 12 < m then none
  else buildRows y m (monthdayscalendar y m)

/-- A raw query parameter as consumed by `_parse_year_month`: it is
abstracted by whether Python `int()` accepts it and, when it does, the
integer it denotes; `nonNumeric` covers every string `int()` rejects. -/
inductive RawValue where
  | ofInt (n : Int)
  | nonNumeric
deriving DecidableEq

/-- `int(request.GET.get(key, default))`: a missing parameter falls back
to the integer default; a non-numeric parameter raises `ValueError`
(modelled as `none`). -/
def tryRaw (v : Option RawValue) (dflt : Int) : Option Int :=
  match v with
  | none => some dflt
  | some (RawValue.ofInt n) => some n
  | some RawValue.nonNumeric => none

/-- `_parse_year_month` (views.py lines 22–37): parse year then month with
`today`'s components as defaults for missing parameters; on `ValueError`
(non-numeric input, or month outside `[1, 12]`) fall back to
`(today.year, today.month)`. -/
def parseYearMonth (yearRaw monthRaw : Option RawValue) (today : PyDate) : Int × Int :=
  match tryRaw yearRaw today.year, tryRaw monthRaw (today.month : Int) with
  | some y, some m =>
      if m < 1 ∨ 12 < m then ((today.year : Int), (today.month : Int)) else (y, m)
  | _, _ => ((today.year : Int), (today.month : Int))

/-- `date - timedelta(days=1)`, modelled from the `datetime` library for
valid dates: step one day back in the proleptic Gregorian calendar;
`none` models the `OverflowError` below `date.min`. -/
def dateSub1 (d : PyDate) : Option PyDate :=
  if 1 < d.day then some ⟨d.year, d.month, d.day - 1⟩
  else if 1 < d.month then some ⟨d.year, d.month - 1, daysInMonth d.year (d.month - 1)⟩
  else if 1 < d.year then some ⟨d.year - 1, 12, 31⟩
  else none

/-- `date + timedelta(days=1)`, modelled from the `datetime` library for
valid dates; `none` models the `OverflowError` above `date.max`. -/
def dateAdd1 (d : PyDate) : Option PyDate :=
  if d.day < daysInMonth d.year d.month then some ⟨d.year, d.month, d.day + 1⟩
  else if d.month < 12 then some ⟨d.year, d.month + 1, 1⟩
  else if d.year < 9999 then some ⟨d.year + 1, 1, 1⟩
  else none

/-- `date + timedelta(days=n)`: iterate `dateAdd1`. -/
def dateAdd (d : PyDate) : Nat → Option PyDate
  | 0 => some d
  | n + 1 =>
    match dateAdd1 d with
    | some d2 => dateAdd d2 n
    | none => none

/-- The inline prev/next computation of `month_view` (views.py lines
64–67), which the specification names `adjacentMonths`:
`prev = (date(y, m, 1) - timedelta(days=1)).replace(day=1)` and
`next = (date(y, m, 1).replace(day=28) + timedelta(days=4)).replace(day=1)`;
the result pairs are `((prev.year, prev.month), (next.year, next.month))`. -/
def adjacentMonths (y : Int) (m : Nat) : Option ((Int × Nat) × (Int × Nat)) :=
  match date? y m 1 with
  | none => none
  | some first =>
    match dateSub1 first with
    | none => none
    | some pd =>
      match date? pd.year pd.month 1 with
      | none => none
      | some prev =>
        match date? first.year first.month 28 with
        | none => none
        | some d28 =>
          match dateAdd d28 4 with
          | none => none
          | some nd =>
            match date? nd.year nd.month 1 with
            | none => none
            | some next =>
              some ((prev.year, prev.month), (next.year, next.month))

/-- `date.strftime("%B")` under the default C locale: full month name. -/
def monthName (m : Nat) : String :=
  ["January", "February", "March", "April", "May", "June", "July",
   "August", "September", "October", "November", "December"].getD (m - 1) ""

/-- The `context` dictionary built by `month_view` (views.py lines 69–79). -/
structure Context where
  year : Int
  month : Nat
  month_name : String
  weeks : List (List DayCell)
  prev_year : Int
  prev_month : Nat
  next_year : Int
  next_month : Nat
  today : PyDate
deriving DecidableEq

/-- `month_view` (views.py lines 60–80) up to the excluded rendering call:
parse the query parameters, then build `month_name`, the navigation
months and the grid.  `none` models an uncaught exception escaping the
view. -/
def month_view (yearRaw monthRaw : Option RawValue) (today : PyDate) : Option Context :=
  let y := (parseYearMonth yearRaw monthRaw today).1
  let mI := (parseYearMonth yearRaw monthRaw today).2
  match date? y mI.toNat 1 with
  | none => none
  | some first =>
    match adjacentMonths y mI.toNat with
    | none => none
    | some pn =>
      match buildMonthGrid? y mI.toNat with
      | none => none
      | some weeks =>
        some ⟨y, mI.toNat, monthName first.month, weeks,
              pn.1.1, pn.1.2, pn.2.1, pn.2.2, today⟩

/-! ### Basic facts about the embedded library functions -/

/-- The cell `_build_month_grid` produces for entry `d` of a week once the
date constructor is known to succeed. -/
def mkCell (y : Int) (m : Nat) (d : Nat) : DayCell :=
  if d = 0 then ⟨0, none⟩ else ⟨d, some ⟨y, m, d⟩⟩

theorem mkCell_day (y : Int) (m d : Nat) : (mkCell y m d).day = d := by
  unfold mkCell
  split
  · simp [*]
  · rfl

theorem daysInMonth_bounds (y : Int) {m : Nat} (h1 : 1 ≤ m) (h2 : m ≤ 12) :
    28 ≤ daysInMonth y m ∧ daysInMonth y m ≤ 31 := by
  interval_cases m <;>
    simp only [daysInMonth, mdays, List.getD_cons_zero, List.getD_cons_succ] <;>
    split <;> omega

theorem date?_eq_some {y : Int} {m d : Nat}
    (h : 1 ≤ y ∧ y ≤ 9999 ∧ 1 ≤ m ∧ m ≤ 12 ∧ 1 ≤ d ∧ d ≤ daysInMonth y m) :
    date? y m d = some ⟨y, m, d⟩ := by
  rw [date?, if_pos h]

theorem date?_eq_none {y : Int} {m d : Nat}
    (h : ¬(1 ≤ y ∧ y ≤ 9999 ∧ 1 ≤ m ∧ m ≤ 12 ∧ 1 ≤ d ∧ d ≤ daysInMonth y m)) :
    date? y m d = none := by
  rw [date?, if_neg h]

theorem padBefore_lt (y : Int) (m : Nat) : padBefore y m < 7 := by
  unfold padBefore
  omega

theorem padAfter_lt (y : Int) (m : Nat) : padAfter y m < 7 := by
  unfold padAfter
  omega

theorem itermonthdays_length (y : Int) (m : Nat) :
    (itermonthdays y m).length = padBefore y m + daysInMonth y m + padAfter y m := by
  simp [itermonthdays]
  omega

theorem seven_dvd_padSum (y : Int) (m : Nat) :
    7 ∣ padBefore y m + daysInMonth y m + padAfter y m := by
  unfold padBefore padAfter
  omega

/-- The congruence `padBefore ≡ pyWeekday(y, m, 1) + 1 (mod 7)`. -/
theorem padBefore_mod (y : Int) (m : Nat) :
    padBefore y m % 7 = (pyWeekday y m 1 + 1) % 7 := by
  unfold padBefore firstweekday
  omega

/-! ### The chunking of the day list into weeks -/

theorem chunksAux_flatten {α : Type} (fuel : Nat) :
    ∀ l : List α, l.length ≤ fuel → (chunksAux fuel l).flatten = l := by
  induction fuel with
  | zero =>
    intro l h
    have hl : l = [] := List.eq_nil_of_length_eq_zero (Nat.le_zero.mp h)
    simp [chunksAux, hl]
  | succ n ih =>
    intro l h
    by_cases hl : l.isEmpty
    · simp [chunksAux, hl, List.isEmpty_iff.mp hl]
    · have hlen : (l.drop 7).length ≤ n := by
        simp only [List.length_drop]
        omega
      simp [chunksAux, hl, ih (l.drop 7) hlen]

theorem chunksAux_mem_length {α : Type} (fuel : Nat) :
    ∀ l : List α, l.length ≤ fuel → 7 ∣ l.length →
      ∀ c ∈ chunksAux fuel l, c.length = 7 := by
  induction fuel with
  | zero =>
    intro l h _ c hc
    have hl : l = [] := List.eq_nil_of_length_eq_zero (Nat.le_zero.mp h)
    simp [chunksAux, hl] at hc
  | succ n ih =>
    intro l h hdvd c hc
    by_cases hl : l.isEmpty
    · simp [chunksAux, hl] at hc
    · have hne : l.length ≠ 0 := by
        simpa [List.isEmpty_iff, List.length_eq_zero] using hl
      have h7 : 7 ≤ l.length := by omega
      simp only [chunksAux, hl, if_neg] at hc
      rcases List.mem_cons.mp hc with rfl | hc
      · simp only [List.length_take]
        omega
      · have hlen : (l.drop 7).length ≤ n := by
          simp only [List.length_drop]
          omega
        have hdvd2 : 7 ∣ (l.drop 7).length := by
          simp only [List.length_drop]
          omega
        exact ih (l.drop 7) hlen hdvd2 c hc

theorem chunksAux_length {α : Type} (fuel : Nat) :
    ∀ l : List α, l.length ≤ fuel → 7 ∣ l.length →
      (chunksAux fuel l).length = l.length / 7 := by
  induction fuel with
  | zero =>
    intro l h _
    have hl : l = [] := List.eq_nil_of_length_eq_zero (Nat.le_zero.mp h)
    simp [chunksAux, hl]
  | succ n ih =>
    intro l h hdvd
    by_cases hl : l.isEmpty
    · simp [chunksAux, hl, List.isEmpty_iff.mp hl]
    · have hne : l.length ≠ 0 := by
        simpa [List.isEmpty_iff, List.length_eq_zero] using hl
      have h7 : 7 ≤ l.length := by omega
      have hlen : (l.drop 7).length ≤ n := by
        simp only [List.length_drop]
        omega
      have hdvd2 : 7 ∣ (l.drop 7).length := by
        simp only [List.length_drop]
        omega
      rw [chunksAux, if_neg hl]
      simp only [List.length_cons, ih (l.drop 7) hlen hdvd2, List.length_drop]
      omega

theorem monthdayscalendar_flatten (y : Int) (m : Nat) :
    (monthdayscalendar y m).flatten = itermonthdays y m :=
  chunksAux_flatten _ _ (Nat.le_refl _)

theorem monthdayscalendar_mem_length (y : Int) (m : Nat) :
    ∀ w ∈ monthdayscalendar y m, w.length = 7 := by
  have hdvd : 7 ∣ (itermonthdays y m).length := by
    rw [itermonthdays_length]
    exact seven_dvd_padSum y m
  exact chunksAux_mem_length _ _ (Nat.le_refl _) hdvd

theorem monthdayscalendar_length (y : Int) (m : Nat) :
    (monthdayscalendar y m).length = (itermonthdays y m).length / 7 := by
  have hdvd : 7 ∣ (itermonthdays y m).length := by
    rw [itermonthdays_length]
    exact seven_dvd_padSum y m
  exact chunksAux_length _ _ (Nat.le_refl _) hdvd

/-- Index into the flattening of a list of 7-element rows. -/
theorem flatten_getElem_rows {α : Type} :
    ∀ (g : List (List α)), (∀ c ∈ g, c.length = 7) →
      ∀ (w j : Nat), j < 7 →
        g.flatten[7 * w + j]? = (g[w]?).bind fun week => week[j]? := by
  intro g
  induction g with
  | nil => intro _ w j _; simp
  | cons week rest ih =>
    intro h7 w j hj
    have hw : week.length = 7 := h7 week (List.mem_cons_self _ _)
    cases w with
    | zero =>
      simp only [List.flatten_cons, List.getElem?_append, Nat.mul_zero, Nat.zero_add]
      rw [if_pos (by omega)]
      simp
    | succ w' =>
      have harith : 7 * (w' + 1) + j = week.length + (7 * w' + j) := by omega
      simp only [List.flatten_cons, harith, List.getElem?_append]
      rw [if_neg (by omega)]
      have : week.length + (7 * w' + j) - week.length = 7 * w' + j := by omega
      rw [this, ih (fun c hc => h7 c (List.mem_cons_of_mem _ hc)) w' j hj]
      simp

/-! ### Normal form of the built grid -/

theorem buildRow_eq {y : Int} {m : Nat}
    (hy1 : 1 ≤ y) (hy2 : y ≤ 9999) (hm1 : 1 ≤ m) (hm2 : m ≤ 12) :
    ∀ ds : List Nat, (∀ d ∈ ds, d ≤ daysInMonth y m) →
      buildRow y m ds = some (ds.map (mkCell y m)) := by
  intro ds
  induction ds with
  | nil => intro _; rfl
  | cons d rest ih =>
    intro h
    have hd : d ≤ daysInMonth y m := h d (List.mem_cons_self _ _)
    have hrest := ih fun x hx => h x (List.mem_cons_of_mem _ hx)
    by_cases h0 : d = 0
    · subst h0
      simp [buildRow, cellOf, hrest, mkCell]
    · have hdate : date? y m d = some ⟨y, m, d⟩ :=
        date?_eq_some ⟨hy1, hy2, hm1, hm2, by omega, hd⟩
      simp [buildRow, cellOf, h0, hdate, hrest, mkCell]

theorem buildRows_eq {y : Int} {m : Nat}
    (hy1 : 1 ≤ y) (hy2 : y ≤ 9999) (hm1 : 1 ≤ m) (hm2 : m ≤ 12) :
    ∀ ws : List (List Nat), (∀ w ∈ ws, ∀ d ∈ w, d ≤ daysInMonth y m) →
      buildRows y m ws = some (ws.map (List.map (mkCell y m))) := by
  intro ws
  induction ws with
  | nil => intro _; rfl
  | cons w rest ih =>
    intro h
    have hw := buildRow_eq hy1 hy2 hm1 hm2 w (h w (List.mem_cons_self _ _))
    have hrest := ih fun x hx => h x (List.mem_cons_of_mem _ hx)
    simp [buildRows, hw, hrest]

theorem itermonthdays_mem_le (y : Int) (m : Nat) :
    ∀ d ∈ itermonthdays y m, d ≤ daysInMonth y m := by
  intro d hd
  simp only [itermonthdays, List.mem_append, List.mem_replicate, List.mem_range'_1] at hd
  rcases hd with (⟨-, rfl⟩ | h) | ⟨-, rfl⟩
  · exact Nat.zero_le _
  · omega
  · exact Nat.zero_le _

/-- Under a valid request, `_build_month_grid` does not raise and produces
exactly the cell-mapped Sunday-start week layout of the month. -/
theorem buildMonthGrid?_eq {y : Int} {m : Nat}
    (hy1 : 1 ≤ y) (hy2 : y ≤ 9999) (hm1 : 1 ≤ m) (hm2 : m ≤ 12) :
    buildMonthGrid? y m =
      some ((monthdayscalendar y m).map (List.map (mkCell y m))) := by
  have hmem : ∀ w ∈ monthdayscalendar y m, ∀ d ∈ w, d ≤ daysInMonth y m := by
    intro w hw d hd
    exact itermonthdays_mem_le y m d
      (by rw [← monthdayscalendar_flatten y m]; exact List.mem_flatten.mpr ⟨w, hw, hd⟩)
  rw [buildMonthGrid?, if_neg (by omega)]
  exact buildRows_eq hy1 hy2 hm1 hm2 _ hmem

theorem grid_flatten {y : Int} {m : Nat} {g : List (List DayCell)}
    (hy1 : 1 ≤ y) (hy2 : y ≤ 9999) (hm1 : 1 ≤ m) (hm2 : m ≤ 12)
    (hg : buildMonthGrid? y m = some g) :
    g.flatten = (itermonthdays y m).map (mkCell y m) := by
  rw [buildMonthGrid?_eq hy1 hy2 hm1 hm2] at hg
  cases hg
  rw [← List.map_flatten, monthdayscalendar_flatten]

theorem grid_weeks_length {y : Int} {m : Nat} {g : List (List DayCell)}
    (hy1 : 1 ≤ y) (hy2 : y ≤ 9999) (hm1 : 1 ≤ m) (hm2 : m ≤ 12)
    (hg : buildMonthGrid? y m = some g) :
    ∀ week ∈ g, week.length = 7 := by
  rw [buildMonthGrid?_eq hy1 hy2 hm1 hm2] at hg
  cases hg
  intro week hweek
  rcases List.mem_map.mp hweek with ⟨w, hw, rfl⟩
  rw [List.length_map]
  exact monthdayscalendar_mem_length y m w hw

theorem grid_length {y : Int} {m : Nat} {g : List (List DayCell)}
    (hy1 : 1 ≤ y) (hy2 : y ≤ 9999) (hm1 : 1 ≤ m) (hm2 : m ≤ 12)
    (hg : buildMonthGrid? y m = some g) :
    g.length = (padBefore y m + daysInMonth y m + padAfter y m) / 7 := by
  rw [buildMonthGrid?_eq hy1 hy2 hm1 hm2] at hg
  cases hg
  rw [List.length_map, monthdayscalendar_length, itermonthdays_length]

theorem grid_flatten_days {y : Int} {m : Nat} {g : List (List DayCell)}
    (hy1 : 1 ≤ y) (hy2 : y ≤ 9999) (hm1 : 1 ≤ m) (hm2 : m ≤ 12)
    (hg : buildMonthGrid? y m = some g) :
    g.flatten.map DayCell.day = itermonthdays y m := by
  rw [grid_flatten hy1 hy2 hm1 hm2 hg, List.map_map]
  have hid : (DayCell.day ∘ mkCell y m) = id := funext (mkCell_day y m)
  rw [hid, List.map_id]

theorem itermonthdays_getElem?_low {y : Int} {m : Nat} {i : Nat}
    (hi : i < padBefore y m) :
    (itermonthdays y m)[i]? = some 0 := by
  unfold itermonthdays
  rw [List.getElem?_append, List.getElem?_append]
  simp only [List.length_append, List.length_replicate, List.length_range']
  rw [if_pos (by omega), if_pos (by omega)]
  simp [List.getElem?_replicate, hi]

theorem itermonthdays_getElem?_day {y : Int} {m : Nat} {i : Nat}
    (h1 : padBefore y m ≤ i) (h2 : i < padBefore y m + daysInMonth y m) :
    (itermonthdays y m)[i]? = some (i - padBefore y m + 1) := by
  unfold itermonthdays
  rw [List.getElem?_append, List.getElem?_append]
  simp only [List.length_append, List.length_replicate, List.length_range']
  rw [if_pos (by omega), if_neg (by omega),
    List.getElem?_range' 1 1 (show i - padBefore y m < daysInMonth y m by omega)]
  congr 1
  omega

theorem itermonthdays_getElem?_high {y : Int} {m : Nat} {i : Nat}
    (h1 : padBefore y m + daysInMonth y m ≤ i)
    (h2 : i < padBefore y m + daysInMonth y m + padAfter y m) :
    (itermonthdays y m)[i]? = some 0 := by
  unfold itermonthdays
  rw [List.getElem?_append]
  simp only [List.length_append, List.length_replicate, List.length_range']
  rw [if_neg (by omega)]
  rw [List.getElem?_replicate, if_pos (by omega)]

/-! ### Claim theorems: grid shape and content -/

/-- C1: for every valid year and month, the non-zero `day` values across
all cells of the grid, read week by week and cell by cell, are exactly
the list `[1, 2, …, daysInMonth(year, month)]` — so each calendar day
appears exactly once and in chronological order. -/
theorem buildMonthGrid_days_exact (y : Int) (m : Nat) (g : List (List DayCell))
    (hy1 : 1 ≤ y) (hy2 : y ≤ 9999) (hm1 : 1 ≤ m) (hm2 : m ≤ 12)
    (hg : buildMonthGrid? y m = some g) :
    (g.flatten.map DayCell.day).filter (· ≠ 0) = List.range' 1 (daysInMonth y m) := by
  rw [grid_flatten_days hy1 hy2 hm1 hm2 hg, itermonthdays]
  simp [List.filter_append, List.filter_replicate, List.filter_eq_self]
  intro a h1 h2
  omega

/-- Witness for C1 at (year, month) = (2024, 1): January 2024 has days
1..31 in order. -/
theorem buildMonthGrid_days_exact_witness :
    (1 : Int) ≤ 2024 ∧
      ((((buildMonthGrid? 2024 1).getD []).flatten.map DayCell.day).filter (· ≠ 0))
        = List.range' 1 (daysInMonth 2024 1) :=
  ⟨by decide,
   buildMonthGrid_days_exact 2024 1 ((buildMonthGrid? 2024 1).getD [])
     (by decide) (by decide) (by decide) (by decide) (by decide)⟩

/-- C2: for every valid year and month, every week of the grid has
exactly 7 cells. -/
theorem buildMonthGrid_weeks_length (y : Int) (m : Nat) (g : List (List DayCell))
    (hy1 : 1 ≤ y) (hy2 : y ≤ 9999) (hm1 : 1 ≤ m) (hm2 : m ≤ 12)
    (hg : buildMonthGrid? y m = some g) :
    ∀ week ∈ g, week.length = 7 :=
  grid_weeks_length hy1 hy2 hm1 hm2 hg

/-- Witness for C2 at (2024, 1): the first week of the January 2024 grid
has 7 cells. -/
theorem buildMonthGrid_weeks_length_witness :
    (((buildMonthGrid? 2024 1).getD []).getD 0 []).length = 7 :=
  buildMonthGrid_weeks_length 2024 1 ((buildMonthGrid? 2024 1).getD [])
    (by decide) (by decide) (by decide) (by decide) (by decide)
    (((buildMonthGrid? 2024 1).getD []).getD 0 []) (by decide)

/-- C3: in every cell of the grid, `date` is `none` exactly on padding
cells (`day = 0`), and on a day cell it is the date of the requested
year and month whose day component equals the cell's `day`. -/
theorem dayCell_date_invariant (y : Int) (m : Nat) (g : List (List DayCell))
    (hy1 : 1 ≤ y) (hy2 : y ≤ 9999) (hm1 : 1 ≤ m) (hm2 : m ≤ 12)
    (hg : buildMonthGrid? y m = some g) :
    ∀ week ∈ g, ∀ cell ∈ week,
      cell.date = if cell.day = 0 then none else some ⟨y, m, cell.day⟩ := by
  rw [buildMonthGrid?_eq hy1 hy2 hm1 hm2] at hg
  cases hg
  intro week hweek cell hcell
  rcases List.mem_map.mp hweek with ⟨w, hw, rfl⟩
  rcases List.mem_map.mp hcell with ⟨d, hd, rfl⟩
  by_cases h0 : d = 0 <;> simp [mkCell, h0]

/-- Witness for C3 at (2024, 1), first week, cell at column 1 (January 1,
2024, a Monday). -/
theorem dayCell_date_invariant_witness :
    ((((buildMonthGrid? 2024 1).getD []).getD 0 []).getD 1 ⟨0, none⟩).date =
      (if ((((buildMonthGrid? 2024 1).getD []).getD 0 []).getD 1 ⟨0, none⟩).day = 0
       then none
       else some ⟨2024, 1, ((((buildMonthGrid? 2024 1).getD []).getD 0 []).getD 1
          ⟨0, none⟩).day⟩) :=
  dayCell_date_invariant 2024 1 ((buildMonthGrid? 2024 1).getD [])
    (by decide) (by decide) (by decide) (by decide) (by decide)
    (((buildMonthGrid? 2024 1).getD []).getD 0 []) (by decide)
    ((((buildMonthGrid? 2024 1).getD []).getD 0 []).getD 1 ⟨0, none⟩) (by decide)

theorem daysInMonth_feb (y : Int) :
    daysInMonth y 2 = 28 + (if isleap y = true then 1 else 0) := by
  simp [daysInMonth, mdays]

/-- C6: a cell with day 29 appears in the February grid exactly when the
year is leap under the code's rule (`isleap`: divisible by 4, except
centuries unless divisible by 400). -/
theorem buildMonthGrid_leap_feb29 (y : Int) (g : List (List DayCell))
    (hy1 : 1 ≤ y) (hy2 : y ≤ 9999)
    (hg : buildMonthGrid? y 2 = some g) :
    (g.flatten.map DayCell.day).contains 29 = isleap y := by
  rw [grid_flatten_days hy1 hy2 (by omega) (by omega) hg, itermonthdays]
  cases h : isleap y
  · have hn : daysInMonth y 2 = 28 := by
      rw [daysInMonth_feb, h]
      simp
    have hnot : (29 : Nat) ∉ List.replicate (padBefore y 2) 0
        ++ List.range' 1 (daysInMonth y 2) ++ List.replicate (padAfter y 2) 0 := by
      simp only [List.mem_append, List.mem_replicate, List.mem_range'_1, hn]
      omega
    simp [hnot]
    omega
  · have hn : daysInMonth y 2 = 29 := by
      rw [daysInMonth_feb, h]
      simp
    have hmem : (29 : Nat) ∈ List.replicate (padBefore y 2) 0
        ++ List.range' 1 (daysInMonth y 2) ++ List.replicate (padAfter y 2) 0 := by
      simp only [List.mem_append, List.mem_replicate, List.mem_range'_1, hn]
      omega
    simp [hmem]
    omega

/-- Witness for C6: February 2024 (leap) contains day 29, its grid has
5 weeks and its days are 1..29; February 2023 (non-leap) has no day 29
and its days end at 28. -/
theorem buildMonthGrid_leap_feb29_witness :
    ((((buildMonthGrid? 2024 2).getD []).flatten.map DayCell.day).contains 29 = isleap 2024)
    ∧ isleap 2024 = true
    ∧ ((buildMonthGrid? 2024 2).getD []).length = 5
    ∧ (((buildMonthGrid? 2024 2).getD []).flatten.map DayCell.day).filter (· ≠ 0)
        = List.range' 1 29
    ∧ ((((buildMonthGrid? 2023 2).getD []).flatten.map DayCell.day).contains 29 = isleap 2023)
    ∧ isleap 2023 = false
    ∧ (((buildMonthGrid? 2023 2).getD []).flatten.map DayCell.day).filter (· ≠ 0)
        = List.range' 1 28 :=
  ⟨buildMonthGrid_leap_feb29 2024 ((buildMonthGrid? 2024 2).getD [])
     (by decide) (by decide) (by decide),
   by decide, by decide, by decide,
   buildMonthGrid_leap_feb29 2023 ((buildMonthGrid? 2023 2).getD [])
     (by decide) (by decide) (by decide),
   by decide, by decide⟩

/-- C8: for every valid year and month the grid has between 4 and 6
weeks. -/
theorem buildMonthGrid_weeks_count (y : Int) (m : Nat) (g : List (List DayCell))
    (hy1 : 1 ≤ y) (hy2 : y ≤ 9999) (hm1 : 1 ≤ m) (hm2 : m ≤ 12)
    (hg : buildMonthGrid? y m = some g) :
    4 ≤ g.length ∧ g.length ≤ 6 := by
  have hlen := grid_length hy1 hy2 hm1 hm2 hg
  have hb := daysInMonth_bounds y hm1 hm2
  have ha := padBefore_lt y m
  have ha2 := padAfter_lt y m
  have hd := seven_dvd_padSum y m
  omega

/-- Witness for C8 at (2024, 2): the February 2024 grid has 5 weeks,
which lies in [4, 6]. -/
theorem buildMonthGrid_weeks_count_witness :
    4 ≤ ((buildMonthGrid? 2024 2).getD []).length
    ∧ ((buildMonthGrid? 2024 2).getD []).length ≤ 6 :=
  buildMonthGrid_weeks_count 2024 2 ((buildMonthGrid? 2024 2).getD [])
    (by decide) (by decide) (by decide) (by decide) (by decide)

/-! ### Claim theorems: query-parameter parsing -/

/-- C4 counterexample: with a missing year, a supplied valid month "3"
and today = 2024-05-15, `_parse_year_month` returns (2024, 3) — it keeps
the supplied month — whereas the claim says it returns today's
(year, month) = (2024, 5). -/
theorem parseYearMonth_missing_year_counterexample :
    parseYearMonth none (some (RawValue.ofInt 3)) ⟨2024, 5, 15⟩ = (2024, 3)
    ∧ parseYearMonth none (some (RawValue.ofInt 3)) ⟨2024, 5, 15⟩ ≠ (2024, 5) := by
  decide

/-- C4 (amended): `_parse_year_month` falls back to BOTH of today's
components exactly when an input is non-numeric or the parsed month lies
outside [1, 12] (in particular for month = "13"); a MISSING input instead
defaults individually to today's corresponding component, so a missing
year with a supplied valid month keeps that month. -/
theorem parseYearMonth_fallback_behavior (today : PyDate)
    (htm : 1 ≤ (today.month : Int) ∧ (today.month : Int) ≤ 12) :
    (∀ monthRaw, parseYearMonth (some RawValue.nonNumeric) monthRaw today
        = (today.year, (today.month : Int)))
    ∧ (∀ yearRaw, parseYearMonth yearRaw (some RawValue.nonNumeric) today
        = (today.year, (today.month : Int)))
    ∧ (∀ n mI, (mI < 1 ∨ 12 < mI) →
        parseYearMonth (some (RawValue.ofInt n)) (some (RawValue.ofInt mI)) today
          = (today.year, (today.month : Int)))
    ∧ (parseYearMonth (some (RawValue.ofInt 2030)) (some (RawValue.ofInt 13)) today
        = (today.year, (today.month : Int)))
    ∧ (∀ mI, 1 ≤ mI → mI ≤ 12 →
        parseYearMonth none (some (RawValue.ofInt mI)) today = (today.year, mI))
    ∧ (∀ n, parseYearMonth (some (RawValue.ofInt n)) none today
        = (n, (today.month : Int))) := by
  refine ⟨?_, ?_, ?_, ?_, ?_, ?_⟩
  · intro monthRaw
    rfl
  · intro yearRaw
    rcases yearRaw with _ | v
    · rfl
    · rcases v with n | _ <;> rfl
  · intro n mI h
    simp only [parseYearMonth, tryRaw]
    rw [if_pos h]
  · simp only [parseYearMonth, tryRaw]
    rw [if_pos (by omega)]
  · intro mI h1 h2
    simp only [parseYearMonth, tryRaw]
    rw [if_neg (by omega)]
  · intro n
    simp only [parseYearMonth, tryRaw]
    rw [if_neg (by omega)]

/-- Witness for C4 with today = 2024-05-15: a non-numeric year falls back
to both components, month "13" falls back to both components, and a
missing month defaults to today's month while keeping the supplied
year. -/
theorem parseYearMonth_fallback_behavior_witness :
    parseYearMonth (some RawValue.nonNumeric) (some (RawValue.ofInt 7)) ⟨2024, 5, 15⟩
        = (2024, 5)
    ∧ parseYearMonth (some (RawValue.ofInt 2030)) (some (RawValue.ofInt 13)) ⟨2024, 5, 15⟩
        = (2024, 5)
    ∧ parseYearMonth (some (RawValue.ofInt 2030)) none ⟨2024, 5, 15⟩ = (2030, 5) :=
  ⟨(parseYearMonth_fallback_behavior ⟨2024, 5, 15⟩ (by decide)).1 (some (RawValue.ofInt 7)),
   (parseYearMonth_fallback_behavior ⟨2024, 5, 15⟩ (by decide)).2.2.2.1,
   (parseYearMonth_fallback_behavior ⟨2024, 5, 15⟩ (by decide)).2.2.2.2.2 2030⟩

/-- C9: `_parse_year_month` performs no range validation on the year:
any integer-valued year input is returned unchanged whenever the month
input parses into [1, 12]. -/
theorem parseYearMonth_year_passthrough (n mI : Int) (today : PyDate)
    (h1 : 1 ≤ mI) (h2 : mI ≤ 12) :
    parseYearMonth (some (RawValue.ofInt n)) (some (RawValue.ofInt mI)) today
      = (n, mI) := by
  simp only [parseYearMonth, tryRaw]
  rw [if_neg (by omega)]

/-- Witness for C9: year 0, a negative year and a year above 9999 all
pass through unchanged, although `datetime.date` rejects them
downstream. -/
theorem parseYearMonth_year_passthrough_witness :
    parseYearMonth (some (RawValue.ofInt 0)) (some (RawValue.ofInt 1)) ⟨2024, 5, 15⟩ = (0, 1)
    ∧ parseYearMonth (some (RawValue.ofInt (-5))) (some (RawValue.ofInt 2)) ⟨2024, 5, 15⟩
        = (-5, 2)
    ∧ parseYearMonth (some (RawValue.ofInt 12345)) (some (RawValue.ofInt 3)) ⟨2024, 5, 15⟩
        = (12345, 3)
    ∧ date? 0 1 1 = none ∧ date? 12345 3 1 = none :=
  ⟨parseYearMonth_year_passthrough 0 1 ⟨2024, 5, 15⟩ (by decide) (by decide),
   parseYearMonth_year_passthrough (-5) 2 ⟨2024, 5, 15⟩ (by decide) (by decide),
   parseYearMonth_year_passthrough 12345 3 ⟨2024, 5, 15⟩ (by decide) (by decide),
   by decide, by decide⟩

/-! ### Date arithmetic for the prev/next navigation -/

theorem dateSub1_mk (y' : Int) (m' d' : Nat) :
    dateSub1 ⟨y', m', d'⟩ =
      if 1 < d' then some ⟨y', m', d' - 1⟩
      else if 1 < m' then some ⟨y', m' - 1, daysInMonth y' (m' - 1)⟩
      else if 1 < y' then some ⟨y' - 1, 12, 31⟩
      else none := rfl

theorem dateAdd1_mk (y' : Int) (m' d' : Nat) :
    dateAdd1 ⟨y', m', d'⟩ =
      if d' < daysInMonth y' m' then some ⟨y', m', d' + 1⟩
      else if m' < 12 then some ⟨y', m' + 1, 1⟩
      else if y' < 9999 then some ⟨y' + 1, 1, 1⟩
      else none := rfl

theorem dateAdd_succ_some {d d2 : PyDate} {n : Nat} (h : dateAdd1 d = some d2) :
    dateAdd d (n + 1) = dateAdd d2 n := by
  simp only [dateAdd]
  rw [h]

theorem dateAdd_zero (d : PyDate) : dateAdd d 0 = some d := rfl

/-- Adding four days to the 28th lands on day 1–4 of the immediately
following month (with year rollover for December). -/
theorem dateAdd4_from28 {y : Int} {m : Nat}
    (hy1 : 1 ≤ y) (hy2 : y ≤ 9999) (hm1 : 1 ≤ m) (hm2 : m ≤ 12)
    (hhi : ¬(y = 9999 ∧ m = 12)) :
    ∃ d : Nat, 1 ≤ d ∧ d ≤ 4 ∧
      dateAdd ⟨y, m, 28⟩ 4 =
        some ⟨if m = 12 then y + 1 else y, if m = 12 then 1 else m + 1, d⟩ := by
  have hdm := daysInMonth_bounds y hm1 hm2
  have hnext : 28 ≤ daysInMonth (if m = 12 then y + 1 else y) (if m = 12 then 1 else m + 1) := by
    by_cases h12 : m = 12
    · simp only [h12, if_pos]
      exact (daysInMonth_bounds (y + 1) (by omega) (by omega)).1
    · rw [if_neg h12, if_neg h12]
      exact (daysInMonth_bounds y (show 1 ≤ m + 1 by omega) (by omega)).1
  have hroll : ∀ k : Nat, daysInMonth y m ≤ k → dateAdd1 ⟨y, m, k⟩ =
      some ⟨if m = 12 then y + 1 else y, if m = 12 then 1 else m + 1, 1⟩ := by
    intro k hk
    rw [dateAdd1_mk, if_neg (by omega)]
    by_cases h12 : m = 12
    · rw [if_neg (by omega), if_pos (by omega)]
      simp [h12]
    · rw [if_pos (by omega)]
      simp [h12]
  have hup : ∀ k : Nat, k < daysInMonth y m → dateAdd1 ⟨y, m, k⟩ = some ⟨y, m, k + 1⟩ := by
    intro k hk
    rw [dateAdd1_mk, if_pos (by omega)]
  have hsmall : ∀ k : Nat, k < 28 → dateAdd1 ⟨if m = 12 then y + 1 else y,
      if m = 12 then 1 else m + 1, k⟩ =
      some ⟨if m = 12 then y + 1 else y, if m = 12 then 1 else m + 1, k + 1⟩ := by
    intro k hk
    rw [dateAdd1_mk, if_pos (by omega)]
  have hcase : daysInMonth y m = 28 ∨ daysInMonth y m = 29 ∨ daysInMonth y m = 30
      ∨ daysInMonth y m = 31 := by omega
  rcases hcase with hn | hn | hn | hn
  · refine ⟨4, by omega, by omega, ?_⟩
    have s2 : dateAdd1 ⟨if m = 12 then y + 1 else y, if m = 12 then 1 else m + 1, 1⟩ =
        some ⟨if m = 12 then y + 1 else y, if m = 12 then 1 else m + 1, 2⟩ :=
      hsmall 1 (by omega)
    have s3 : dateAdd1 ⟨if m = 12 then y + 1 else y, if m = 12 then 1 else m + 1, 2⟩ =
        some ⟨if m = 12 then y + 1 else y, if m = 12 then 1 else m + 1, 3⟩ :=
      hsmall 2 (by omega)
    have s4 : dateAdd1 ⟨if m = 12 then y + 1 else y, if m = 12 then 1 else m + 1, 3⟩ =
        some ⟨if m = 12 then y + 1 else y, if m = 12 then 1 else m + 1, 4⟩ :=
      hsmall 3 (by omega)
    rw [dateAdd_succ_some (hroll 28 (by omega)), dateAdd_succ_some s2,
      dateAdd_succ_some s3, dateAdd_succ_some s4, dateAdd_zero]
  · refine ⟨3, by omega, by omega, ?_⟩
    have s1 : dateAdd1 ⟨y, m, 28⟩ = some ⟨y, m, 29⟩ := hup 28 (by omega)
    have s3 : dateAdd1 ⟨if m = 12 then y + 1 else y, if m = 12 then 1 else m + 1, 1⟩ =
        some ⟨if m = 12 then y + 1 else y, if m = 12 then 1 else m + 1, 2⟩ :=
      hsmall 1 (by omega)
    have s4 : dateAdd1 ⟨if m = 12 then y + 1 else y, if m = 12 then 1 else m + 1, 2⟩ =
        some ⟨if m = 12 then y + 1 else y, if m = 12 then 1 else m + 1, 3⟩ :=
      hsmall 2 (by omega)
    rw [dateAdd_succ_some s1, dateAdd_succ_some (hroll 29 (by omega)),
      dateAdd_succ_some s3, dateAdd_succ_some s4, dateAdd_zero]
  · refine ⟨2, by omega, by omega, ?_⟩
    have s1 : dateAdd1 ⟨y, m, 28⟩ = some ⟨y, m, 29⟩ := hup 28 (by omega)
    have s2 : dateAdd1 ⟨y, m, 29⟩ = some ⟨y, m, 30⟩ := hup 29 (by omega)
    have s4 : dateAdd1 ⟨if m = 12 then y + 1 else y, if m = 12 then 1 else m + 1, 1⟩ =
        some ⟨if m = 12 then y + 1 else y, if m = 12 then 1 else m + 1, 2⟩ :=
      hsmall 1 (by omega)
    rw [dateAdd_succ_some s1, dateAdd_succ_some s2,
      dateAdd_succ_some (hroll 30 (by omega)), dateAdd_succ_some s4, dateAdd_zero]
  · refine ⟨1, by omega, by omega, ?_⟩
    have s1 : dateAdd1 ⟨y, m, 28⟩ = some ⟨y, m, 29⟩ := hup 28 (by omega)
    have s2 : dateAdd1 ⟨y, m, 29⟩ = some ⟨y, m, 30⟩ := hup 29 (by omega)
    have s3 : dateAdd1 ⟨y, m, 30⟩ = some ⟨y, m, 31⟩ := hup 30 (by omega)
    rw [dateAdd_succ_some s1, dateAdd_succ_some s2, dateAdd_succ_some s3,
      dateAdd_succ_some (hroll 31 (by omega)), dateAdd_zero]

/-- The inline prev/next computation of `month_view` on every year/month
for which the underlying date arithmetic does not overflow. -/
theorem adjacentMonths_eq {y : Int} {m : Nat}
    (hy1 : 1 ≤ y) (hy2 : y ≤ 9999) (hm1 : 1 ≤ m) (hm2 : m ≤ 12)
    (hlo : ¬(y = 1 ∧ m = 1)) (hhi : ¬(y = 9999 ∧ m = 12)) :
    adjacentMonths y m =
      some ((if m = 1 then y - 1 else y, if m = 1 then 12 else m - 1),
            (if m = 12 then y + 1 else y, if m = 12 then 1 else m + 1)) := by
  have hdm := daysInMonth_bounds y hm1 hm2
  have hd1 : date? y m 1 = some ⟨y, m, 1⟩ :=
    date?_eq_some ⟨hy1, hy2, hm1, hm2, by omega, by omega⟩
  have hd28 : date? y m 28 = some ⟨y, m, 28⟩ :=
    date?_eq_some ⟨hy1, hy2, hm1, hm2, by omega, by omega⟩
  obtain ⟨d, hd1', hd4, hadd⟩ := dateAdd4_from28 hy1 hy2 hm1 hm2 hhi
  have hnextdate : date? (if m = 12 then y + 1 else y) (if m = 12 then 1 else m + 1) 1
      = some ⟨if m = 12 then y + 1 else y, if m = 12 then 1 else m + 1, 1⟩ := by
    by_cases h12 : m = 12
    · simp only [h12, if_pos]
      exact date?_eq_some ⟨by omega, by omega, by omega, by omega, by omega,
        by have := daysInMonth_bounds (y + 1) (show (1:Nat) ≤ 1 by omega) (by omega); omega⟩
    · rw [if_neg h12, if_neg h12]
      exact date?_eq_some ⟨by omega, by omega, by omega, by omega, by omega,
        by have := daysInMonth_bounds y (show 1 ≤ m + 1 by omega) (by omega); omega⟩
  by_cases h1 : m = 1
  · subst h1
    have hy : 2 ≤ y := by omega
    have hsub : dateSub1 ⟨y, 1, 1⟩ = some ⟨y - 1, 12, 31⟩ := by
      rw [dateSub1_mk, if_neg (by omega), if_neg (by omega), if_pos (by omega)]
    have hprev : date? (y - 1) 12 1 = some ⟨y - 1, 12, 1⟩ :=
      date?_eq_some ⟨by omega, by omega, by omega, by omega, by omega,
        by have := daysInMonth_bounds (y - 1) (show (1:Nat) ≤ 12 by omega) (by omega); omega⟩
    simp only [adjacentMonths, hd1, hsub, hprev, hd28, hadd, hnextdate]
    simp
  · have hm2' : 2 ≤ m := by omega
    have hsub : dateSub1 ⟨y, m, 1⟩ = some ⟨y, m - 1, daysInMonth y (m - 1)⟩ := by
      rw [dateSub1_mk, if_neg (by omega), if_pos (by omega)]
    have hprev : date? y (m - 1) 1 = some ⟨y, m - 1, 1⟩ :=
      date?_eq_some ⟨by omega, by omega, by omega, by omega, by omega,
        by have := daysInMonth_bounds y (show 1 ≤ m - 1 by omega) (by omega); omega⟩
    simp only [adjacentMonths, hd1, hsub, hprev, hd28, hadd, hnextdate]
    simp [h1]

/-- C5 counterexample: at (year, month) = (1, 1) the claim asserts
prev = (0, 12) and next = (1, 2), but the code's
`date(1, 1, 1) - timedelta(days=1)` overflows below `date.min` and
raises (modelled as `none`); likewise (9999, 12) overflows above
`date.max`. -/
theorem adjacentMonths_overflow_counterexample :
    adjacentMonths 1 1 = none ∧ adjacentMonths 9999 12 = none := by
  decide

/-- C5 (amended): for every year in [1, 9999] and month in [1, 12] other
than the two overflow corners (1, 1) and (9999, 12), adjacentMonths
returns the month immediately before and after with year rollover:
month 1 gives prev = (year - 1, 12), otherwise prev = (year, month - 1);
month 12 gives next = (year + 1, 1), otherwise next = (year, month + 1).
At the two excluded corners the date arithmetic raises instead. -/
theorem adjacentMonths_rollover (y : Int) (m : Nat)
    (hy1 : 1 ≤ y) (hy2 : y ≤ 9999) (hm1 : 1 ≤ m) (hm2 : m ≤ 12)
    (hlo : ¬(y = 1 ∧ m = 1)) (hhi : ¬(y = 9999 ∧ m = 12)) :
    adjacentMonths y m =
      some ((if m = 1 then y - 1 else y, if m = 1 then 12 else m - 1),
            (if m = 12 then y + 1 else y, if m = 12 then 1 else m + 1)) :=
  adjacentMonths_eq hy1 hy2 hm1 hm2 hlo hhi

/-- Witness for C5: the spec's two examples,
adjacentMonths(2024, 1) = ((2023, 12), (2024, 2)) and
adjacentMonths(2024, 12) = ((2024, 11), (2025, 1)). -/
theorem adjacentMonths_rollover_witness :
    adjacentMonths 2024 1 = some ((2023, 12), (2024, 2))
    ∧ adjacentMonths 2024 12 = some ((2024, 11), (2025, 1)) := by
  constructor
  · rw [adjacentMonths_rollover 2024 1 (by decide) (by decide) (by decide) (by decide)
      (by decide) (by decide)]
    decide
  · rw [adjacentMonths_rollover 2024 12 (by decide) (by decide) (by decide) (by decide)
      (by decide) (by decide)]
    decide

/-! ### Claim theorems: failure behaviour of the pipeline -/

theorem parseYearMonth_month_range (yearRaw monthRaw : Option RawValue) (today : PyDate)
    (htm : 1 ≤ (today.month : Int) ∧ (today.month : Int) ≤ 12) :
    1 ≤ (parseYearMonth yearRaw monthRaw today).2
    ∧ (parseYearMonth yearRaw monthRaw today).2 ≤ 12 := by
  unfold parseYearMonth
  cases h1 : tryRaw yearRaw today.year with
  | none =>
    show 1 ≤ (today.month : Int) ∧ (today.month : Int) ≤ 12
    exact htm
  | some yv =>
    cases h2 : tryRaw monthRaw (today.month : Int) with
    | none =>
      show 1 ≤ (today.month : Int) ∧ (today.month : Int) ≤ 12
      exact htm
    | some mv =>
      show 1 ≤ (if mv < 1 ∨ 12 < mv then ((today.year : Int), (today.month : Int))
            else (yv, mv)).2
          ∧ (if mv < 1 ∨ 12 < mv then ((today.year : Int), (today.month : Int))
            else (yv, mv)).2 ≤ 12
      by_cases h : mv < 1 ∨ 12 < mv
      · rw [if_pos h]
        show 1 ≤ (today.month : Int) ∧ (today.month : Int) ≤ 12
        exact htm
      · rw [if_neg h]
        show 1 ≤ mv ∧ mv ≤ 12
        omega

/-- C7 counterexample: `month_view` with raw query input year="0",
month="1" (today = 2024-05-15): `_parse_year_month` returns (0, 1)
unchanged, and `dt.date(0, 1, 1)` then raises `ValueError` out of the
view — the pipeline does raise on this raw input. -/
theorem month_view_raises_counterexample :
    month_view (some (RawValue.ofInt 0)) (some (RawValue.ofInt 1)) ⟨2024, 5, 15⟩ = none := by
  decide

/-- C7 (amended): `_parse_year_month` itself never raises, but the view
pipeline is only exception-free when the parsed year lies in [1, 9999]
(which input normalisation does not guarantee, since the year is not
range-checked) and (year, month) is neither (1, 1) nor (9999, 12) (where
the prev/next date arithmetic overflows).  Under those conditions — and a
valid `today` — `month_view` returns a result for every raw input. -/
theorem month_view_no_raise_amended (yearRaw monthRaw : Option RawValue) (today : PyDate)
    (htm : 1 ≤ (today.month : Int) ∧ (today.month : Int) ≤ 12)
    (hy1 : 1 ≤ (parseYearMonth yearRaw monthRaw today).1)
    (hy2 : (parseYearMonth yearRaw monthRaw today).1 ≤ 9999)
    (hlo : ¬((parseYearMonth yearRaw monthRaw today).1 = 1
        ∧ (parseYearMonth yearRaw monthRaw today).2 = 1))
    (hhi : ¬((parseYearMonth yearRaw monthRaw today).1 = 9999
        ∧ (parseYearMonth yearRaw monthRaw today).2 = 12)) :
    (month_view yearRaw monthRaw today).isSome = true := by
  obtain ⟨hm1, hm2⟩ := parseYearMonth_month_range yearRaw monthRaw today htm
  set y := (parseYearMonth yearRaw monthRaw today).1 with hy
  set mI := (parseYearMonth yearRaw monthRaw today).2 with hmI
  have hm1' : 1 ≤ mI.toNat := by omega
  have hm2' : mI.toNat ≤ 12 := by omega
  have hdm := daysInMonth_bounds y hm1' hm2'
  have hd1 : date? y mI.toNat 1 = some ⟨y, mI.toNat, 1⟩ :=
    date?_eq_some ⟨hy1, hy2, hm1', hm2', by omega, by omega⟩
  have hadj := adjacentMonths_eq hy1 hy2 hm1' hm2' (by omega) (by omega)
  have hgrid := buildMonthGrid?_eq hy1 hy2 hm1' hm2'
  simp only [month_view, ← hy, ← hmI, hd1, hadj, hgrid, Option.isSome_some]

/-- Witness for C7 at raw input year="2030", month="6", today =
2024-05-15: the pipeline completes without raising. -/
theorem month_view_no_raise_amended_witness :
    (month_view (some (RawValue.ofInt 2030)) (some (RawValue.ofInt 6))
      ⟨2024, 5, 15⟩).isSome = true :=
  month_view_no_raise_amended (some (RawValue.ofInt 2030)) (some (RawValue.ofInt 6))
    ⟨2024, 5, 15⟩ (by decide) (by decide) (by decide) (by decide) (by decide)

/-! ### Claim theorems: padding layout and weekday columns -/

theorem pyWeekday_valid {y : Int} (hy1 : 1 ≤ y) (hy2 : y ≤ 9999) (m d : Nat) :
    pyWeekday y m d = (toordinal y.toNat m d + 6) % 7 := by
  unfold pyWeekday
  rw [if_pos ⟨hy1, hy2⟩]

theorem toordinal_day (Y m d : Nat) (hd : 1 ≤ d) :
    toordinal Y m d = toordinal Y m 1 + (d - 1) := by
  unfold toordinal
  omega

/-- The day number stored at grid position (week `w`, column `c`):
padding before the first of the month, then day `i - padBefore + 1`,
then padding after the last day. -/
theorem grid_cell_day {y : Int} {m : Nat} {g : List (List DayCell)}
    (hy1 : 1 ≤ y) (hy2 : y ≤ 9999) (hm1 : 1 ≤ m) (hm2 : m ≤ 12)
    (hg : buildMonthGrid? y m = some g)
    {w c : Nat} {week : List DayCell} {cell : DayCell}
    (hw : g[w]? = some week) (hc : week[c]? = some cell) :
    c < 7 ∧ 7 * w + c < padBefore y m + daysInMonth y m + padAfter y m
      ∧ cell.day = (if 7 * w + c < padBefore y m then 0
          else if 7 * w + c < padBefore y m + daysInMonth y m
          then 7 * w + c - padBefore y m + 1 else 0) := by
  have h7 : ∀ wk ∈ g, wk.length = 7 := grid_weeks_length hy1 hy2 hm1 hm2 hg
  obtain ⟨hwlt, hweq⟩ := List.getElem?_eq_some_iff.mp hw
  have hwmem : week ∈ g := hweq ▸ List.getElem_mem hwlt
  obtain ⟨hclt, hceq⟩ := List.getElem?_eq_some_iff.mp hc
  have hc7 : c < 7 := by
    rw [h7 week hwmem] at hclt
    exact hclt
  have hflat : g.flatten[7 * w + c]? = some cell := by
    rw [flatten_getElem_rows g h7 w c hc7, hw]
    simpa using hc
  rw [grid_flatten hy1 hy2 hm1 hm2 hg, List.getElem?_map] at hflat
  cases hL : (itermonthdays y m)[7 * w + c]? with
  | none =>
    rw [hL] at hflat
    simp at hflat
  | some d =>
    rw [hL] at hflat
    rw [Option.map_some'] at hflat
    have hcell : cell = mkCell y m d := by
      injection hflat with h
      exact h.symm
    have hday : cell.day = d := by
      rw [hcell, mkCell_day]
    obtain ⟨hlen', -⟩ := List.getElem?_eq_some_iff.mp hL
    rw [itermonthdays_length] at hlen'
    refine ⟨hc7, hlen', ?_⟩
    by_cases hlow : 7 * w + c < padBefore y m
    · have he := itermonthdays_getElem?_low hlow
      rw [hL] at he
      injection he with he
      rw [if_pos hlow, hday, he]
    · by_cases hmid : 7 * w + c < padBefore y m + daysInMonth y m
      · have he := itermonthdays_getElem?_day (by omega) hmid
        rw [hL] at he
        injection he with he
        rw [if_neg hlow, if_pos hmid, hday, he]
      · have he := itermonthdays_getElem?_high (by omega) hlen'
        rw [hL] at he
        injection he with he
        rw [if_neg hlow, if_neg hmid, hday, he]

/-- C10: padding cells occur only as a contiguous run at the start of the
first week and a contiguous run at the end of the last week — middle
weeks contain no padding — and every day cell sits in the column equal to
the Sunday-based weekday index `(pyWeekday + 1) % 7` of its date, so a
day cell in column 0 always falls on a Sunday (`pyWeekday = 6`). -/
theorem buildMonthGrid_padding_columns (y : Int) (m : Nat) (g : List (List DayCell))
    (hy1 : 1 ≤ y) (hy2 : y ≤ 9999) (hm1 : 1 ≤ m) (hm2 : m ≤ 12)
    (hg : buildMonthGrid? y m = some g) :
    (∀ (w c : Nat) (week : List DayCell) (cell : DayCell),
        g[w]? = some week → week[c]? = some cell → cell.day ≠ 0 →
        c = (pyWeekday y m cell.day + 1) % 7)
    ∧ (∀ (c : Nat) (cell : DayCell) (week : List DayCell),
        g[0]? = some week → week[c]? = some cell → cell.day = 0 →
        ∀ (j : Nat) (cell2 : DayCell), week[j]? = some cell2 → j ≤ c → cell2.day = 0)
    ∧ (∀ (w : Nat) (week : List DayCell), g[w]? = some week → 1 ≤ w → w + 1 < g.length →
        ∀ cell ∈ week, cell.day ≠ 0)
    ∧ (∀ (c : Nat) (cell : DayCell) (week : List DayCell),
        g[g.length - 1]? = some week → week[c]? = some cell → cell.day = 0 →
        ∀ (j : Nat) (cell2 : DayCell), week[j]? = some cell2 → c ≤ j → cell2.day = 0)
    ∧ (∀ (w : Nat) (week : List DayCell) (cell : DayCell),
        g[w]? = some week → week[0]? = some cell → cell.day ≠ 0 →
        pyWeekday y m cell.day = 6) := by
  have hdm := daysInMonth_bounds y hm1 hm2
  have ha := padBefore_lt y m
  have hb := padAfter_lt y m
  have hdvd := seven_dvd_padSum y m
  have hlen := grid_length hy1 hy2 hm1 hm2 hg
  have hcol : ∀ (w c : Nat) (week : List DayCell) (cell : DayCell), g[w]? = some week →
      week[c]? = some cell → cell.day ≠ 0 →
      c = (pyWeekday y m cell.day + 1) % 7 := by
    intro w c week cell hw hc hnz
    obtain ⟨hc7, hi, hday⟩ := grid_cell_day hy1 hy2 hm1 hm2 hg hw hc
    by_cases hlow : 7 * w + c < padBefore y m
    · rw [if_pos hlow] at hday
      exact absurd hday hnz
    by_cases hmid : 7 * w + c < padBefore y m + daysInMonth y m
    case neg =>
      rw [if_neg hlow, if_neg hmid] at hday
      exact absurd hday hnz
    rw [if_neg hlow, if_pos hmid] at hday
    have e4 : pyWeekday y m 1 = (toordinal y.toNat m 1 + 6) % 7 :=
      pyWeekday_valid hy1 hy2 m 1
    have e1 : pyWeekday y m cell.day = (toordinal y.toNat m cell.day + 6) % 7 :=
      pyWeekday_valid hy1 hy2 m cell.day
    have e2 : toordinal y.toNat m cell.day = toordinal y.toNat m 1 + (cell.day - 1) :=
      toordinal_day _ _ _ (by omega)
    have e3 : (padBefore y m : Int) = ((pyWeekday y m 1 : Int) - 6) % 7 := by
      unfold padBefore firstweekday
      omega
    omega
  refine ⟨hcol, ?_, ?_, ?_, ?_⟩
  · intro c cell week hw hc h0 j cell2 hj hje
    obtain ⟨hc7, hi, hday⟩ := grid_cell_day hy1 hy2 hm1 hm2 hg hw hc
    obtain ⟨hj7, hji, hjday⟩ := grid_cell_day hy1 hy2 hm1 hm2 hg hw hj
    have hclow : 7 * 0 + c < padBefore y m := by
      by_contra hcl
      rw [if_neg hcl, if_pos (by omega)] at hday
      omega
    rw [hjday, if_pos (by omega)]
  · intro w week hw h1w h2w cell hcell
    obtain ⟨c, hclt, hceq⟩ := List.mem_iff_getElem.mp hcell
    have hc : week[c]? = some cell := List.getElem?_eq_some_iff.mpr ⟨hclt, hceq⟩
    obtain ⟨hc7, hi, hday⟩ := grid_cell_day hy1 hy2 hm1 hm2 hg hw hc
    rw [if_neg (by omega), if_pos (by omega)] at hday
    omega
  · intro c cell week hw hc h0 j cell2 hj hje
    obtain ⟨hc7, hi, hday⟩ := grid_cell_day hy1 hy2 hm1 hm2 hg hw hc
    obtain ⟨hj7, hji, hjday⟩ := grid_cell_day hy1 hy2 hm1 hm2 hg hw hj
    have hk4 : 4 ≤ g.length := by omega
    have hchigh : padBefore y m + daysInMonth y m ≤ 7 * (g.length - 1) + c := by
      by_contra hcl
      rw [if_neg (by omega), if_pos (by omega)] at hday
      omega
    rw [hjday, if_neg (by omega), if_neg (by omega)]
  · intro w week cell hw hc hnz
    have h := hcol w 0 week cell hw hc hnz
    have hlt : pyWeekday y m cell.day < 7 := by
      rw [pyWeekday_valid hy1 hy2]
      omega
    omega

/-- Witness for C10 at (2024, 2) — February 1, 2024 is a Thursday: the
day cell of February 1 sits in week 0, column 4, which equals its
Sunday-based weekday index, and the cell in week 0, column 0 is
padding. -/
theorem buildMonthGrid_padding_columns_witness :
    (4 = (pyWeekday 2024 2
        ((((buildMonthGrid? 2024 2).getD []).getD 0 []).getD 4 ⟨0, none⟩).day + 1) % 7)
    ∧ ((((buildMonthGrid? 2024 2).getD []).getD 0 []).getD 0 ⟨0, none⟩).day = 0 :=
  ⟨(buildMonthGrid_padding_columns 2024 2 ((buildMonthGrid? 2024 2).getD [])
      (by decide) (by decide) (by decide) (by decide) (by decide)).1 0 4
      (((buildMonthGrid? 2024 2).getD []).getD 0 [])
      ((((buildMonthGrid? 2024 2).getD []).getD 0 []).getD 4 ⟨0, none⟩)
      (by decide) (by decide) (by decide),
   by decide⟩

end CalendarApp
